import Mathlib

/-!
Verification of the payment / image-generation design in this repository.

Part 1 embeds the Python `lambda_handler` from the memo (app.py fragment):
external collaborators `payment.request` and `fal_client.subscribe` are
oracle parameters; a raised Python exception is an `Except.error` carrying
the exception text, and the surrounding try/except turns any such error
into a status-500 response.

Part 2 embeds the idempotent payment-relay coordinator that the
specification reconstructs from the memo's prose (IdempotencyStore,
PaymentGateway, PaymentCoordinator, RetryPolicy, ReconciliationScanner),
together with the `handlePayment` Stripe sketch from the memo.
-/

/-- An invocation event for `lambda_handler`: the four fields the handler
reads with `event.get`.  An absent key is `none`. -/
structure Event where
  one_time_token : Option String
  model_name : Option String
  prompt : Option String
  image_count : Option Int
deriving Repr, DecidableEq

/-- The three response dicts `lambda_handler` can return:
`ok urls` is the 200 dict, `paymentFailed` the 402 dict (whose
`image_urls` is the empty list), `error msg` the 500 dict. -/
inductive LambdaResult where
  | ok (image_urls : List String)
  | paymentFailed
  | error (message : String)
deriving Repr, DecidableEq

/-- The `status_code` field of the returned dict. -/
def LambdaResult.status_code : LambdaResult → Nat
  | .ok _ => 200
  | .paymentFailed => 402
  | .error _ => 500

/-- The `image_urls` field of the returned dict (absent in the 500 dict). -/
def LambdaResult.image_urls : LambdaResult → Option (List String)
  | .ok urls => some urls
  | .paymentFailed => some []
  | .error _ => none

/-- The `message` field of the returned dict (present only in the 500 dict). -/
def LambdaResult.message : LambdaResult → Option String
  | .ok _ => none
  | .paymentFailed => none
  | .error msg => some msg

/-- The oracle for `payment.request`: given the token it either returns a
status code or raises (exception text in `Except.error`). -/
def PayOracle : Type := Option String → Except String Int

/-- The oracle for `fal_client.subscribe`: given the model id, the prompt
and the index of the submitted future, it either raises or returns the
list of urls in `res['images']` (in order). -/
def FalOracle : Type := String → Option String → Nat → Except String (List String)

/-- `generate_single`: calls `fal_client.subscribe` and returns
`res['images'][0]['url']`; indexing an empty list raises IndexError. -/
def generate_single (fal : FalOracle) (model_id : String) (prompt : Option String)
    (i : Nat) : Except String String :=
  match fal model_id prompt i with
  | .error e => .error e
  | .ok [] => .error "list index out of range"
  | .ok (u :: _) => .ok u

/-- `count = max(1, min(event.get('image_count', 1), 4))` as a natural
number (it is always at least 1). -/
def clampedCount (ev : Event) : Nat :=
  (max 1 (min (ev.image_count.getD 1) 4)).toNat

/-- `[f.result() for f in futures]`: collect the results in submission
order; the first future whose result raises propagates its exception. -/
def collectResults : List (Except String String) → Except String (List String)
  | [] => .ok []
  | .error e :: _ => .error e
  | .ok u :: rest =>
    match collectResults rest with
    | .error e => .error e
    | .ok us => .ok (u :: us)

/-- The body of the `try:` block of `lambda_handler`.  All `count` futures
are submitted (hence `fal` is invoked `count` times) before any result is
collected, so the second component counts the `fal_client.subscribe`
invocations the call performs. -/
def handlerBody (pay : PayOracle) (fal : FalOracle) (ev : Event) :
    Except String LambdaResult × Nat :=
  match pay ev.one_time_token with
  | .error e => (.error e, 0)
  | .ok code =>
    if code ≠ 200 then (.ok .paymentFailed, 0)
    else
      match collectResults ((List.range (clampedCount ev)).map
          (generate_single fal (ev.model_name.getD "fal-ai/flux/dev") ev.prompt)) with
      | .error e => (.error e, clampedCount ev)
      | .ok urls => (.ok (.ok urls), clampedCount ev)

/-- `lambda_handler`: the try/except wrapper around `handlerBody`; a raised
exception becomes the 500 dict with the exception text as `message`.
Second component: number of `fal_client.subscribe` invocations. -/
def lambda_handler (pay : PayOracle) (fal : FalOracle) (ev : Event) :
    LambdaResult × Nat :=
  match handlerBody pay fal ev with
  | (.error e, n) => (.error e, n)
  | (.ok r, n) => (r, n)

theorem collectResults_length (l : List (Except String String)) (us : List String)
    (h : collectResults l = .ok us) : us.length = l.length := by
  induction l generalizing us with
  | nil => simp [collectResults] at h; simp [← h]
  | cons x rest ih =>
    match x with
    | .error e => simp [collectResults] at h
    | .ok u =>
      simp only [collectResults] at h
      cases hrest : collectResults rest with
      | error e => rw [hrest] at h; exact absurd h (by simp)
      | ok us0 =>
        rw [hrest] at h
        simp at h
        subst h
        simp [ih us0 hrest]

/-- Lemma: the number of urls returned on the 200 path equals the number
of submitted futures. -/
theorem handlerBody_ok_length (pay : PayOracle) (fal : FalOracle) (ev : Event)
    (urls : List String) (h : (handlerBody pay fal ev).1 = .ok (.ok urls)) :
    urls.length = clampedCount ev := by
  unfold handlerBody at h
  cases hp : pay ev.one_time_token with
  | error e => rw [hp] at h; simp at h
  | ok code =>
    rw [hp] at h
    by_cases hc : code ≠ 200
    · simp [hc] at h
    · simp only [hc, if_false] at h
      cases hcr : collectResults (((List.range (clampedCount ev))).map
          (generate_single fal (ev.model_name.getD "fal-ai/flux/dev") ev.prompt)) with
      | error e => rw [hcr] at h; simp at h
      | ok us =>
        rw [hcr] at h
        simp at h
        subst h
        have := collectResults_length _ _ hcr
        simpa using this

/-- C8: for every event, `lambda_handler` clamps the requested image count
to the range 1..4 (1 when `image_count` is absent), and a status-200
response carries exactly that many urls. -/
theorem lambda_handler_clamps_image_count (pay : PayOracle) (fal : FalOracle)
    (ev : Event) :
    1 ≤ clampedCount ev ∧ clampedCount ev ≤ 4 ∧
    (ev.image_count = none → clampedCount ev = 1) ∧
    (∀ urls, (lambda_handler pay fal ev).1 = .ok urls →
      urls.length = clampedCount ev) := by
  refine ⟨?_, ?_, ?_, ?_⟩
  · simp only [clampedCount]; omega
  · simp only [clampedCount]; omega
  · intro h; simp [clampedCount, h]
  · intro urls h
    unfold lambda_handler at h
    cases hb : handlerBody pay fal ev with
    | mk r n =>
      cases r with
      | error e => rw [hb] at h; simp at h
      | ok r0 =>
        rw [hb] at h
        simp at h
        subst h
        exact handlerBody_ok_length pay fal ev urls (by rw [hb])

def payOk : PayOracle := fun _ => .ok 200

def payFail : PayOracle := fun _ => .ok 402

def payRaise : PayOracle := fun _ => .error "Connection Timeout"

def falOk : FalOracle := fun _ _ _ => .ok ["http://fake.jpg"]

def testEvent : Event :=
  { one_time_token := some "tok_123", model_name := some "fal-ai/nano-banana-pro",
    prompt := some "cyberpunk city", image_count := some 3 }

/-- Witness for C8 at a concrete event with `image_count = 3`. -/
theorem lambda_handler_clamps_image_count_witness :
    (["http://fake.jpg", "http://fake.jpg", "http://fake.jpg"] : List String).length
      = clampedCount testEvent :=
  (lambda_handler_clamps_image_count payOk falOk testEvent).2.2.2
    ["http://fake.jpg", "http://fake.jpg", "http://fake.jpg"] (by rfl)

/-- C9: if `payment.request` returns a value other than 200, the handler
returns the 402 dict with an empty `image_urls` and performs zero
`fal_client.subscribe` invocations. -/
theorem payment_failure_skips_generation (pay : PayOracle) (fal : FalOracle)
    (ev : Event) (code : Int) (hp : pay ev.one_time_token = .ok code)
    (hc : code ≠ 200) :
    (lambda_handler pay fal ev).1.status_code = 402 ∧
    (lambda_handler pay fal ev).1.image_urls = some [] ∧
    (lambda_handler pay fal ev).2 = 0 := by
  have hbody : handlerBody pay fal ev = (.ok .paymentFailed, 0) := by
    unfold handlerBody
    rw [hp]
    simp [hc]
  simp [lambda_handler, hbody, LambdaResult.status_code, LambdaResult.image_urls]

/-- Witness for C9: a concrete oracle returning 402. -/
theorem payment_failure_skips_generation_witness :
    (lambda_handler payFail falOk testEvent).1.status_code = 402 ∧
    (lambda_handler payFail falOk testEvent).1.image_urls = some [] ∧
    (lambda_handler payFail falOk testEvent).2 = 0 :=
  payment_failure_skips_generation payFail falOk testEvent 402 rfl (by decide)

/-- C10: `lambda_handler` is total: it always returns a dict with
`status_code` in 200/402/500; a raised exception anywhere in the body
surfaces as the 500 dict carrying the exception text, and in particular an
exception from `payment.request` appears in the `message` field. -/
theorem lambda_handler_total (pay : PayOracle) (fal : FalOracle) (ev : Event) :
    ((lambda_handler pay fal ev).1.status_code = 200 ∨
     (lambda_handler pay fal ev).1.status_code = 402 ∨
     (lambda_handler pay fal ev).1.status_code = 500) ∧
    (∀ e, (handlerBody pay fal ev).1 = .error e →
      (lambda_handler pay fal ev).1 = .error e) ∧
    (∀ e, pay ev.one_time_token = .error e →
      (lambda_handler pay fal ev).1.message = some e) := by
  refine ⟨?_, ?_, ?_⟩
  · unfold lambda_handler
    cases hb : handlerBody pay fal ev with
    | mk r n =>
      cases r with
      | error e => simp [LambdaResult.status_code]
      | ok r0 =>
        cases r0 <;> simp [LambdaResult.status_code]
  · intro e h
    unfold lambda_handler
    cases hb : handlerBody pay fal ev with
    | mk r n =>
      rw [hb] at h
      simp at h
      subst h
      simp
  · intro e h
    have hbody : handlerBody pay fal ev = (.error e, 0) := by
      unfold handlerBody
      rw [h]
    simp [lambda_handler, hbody, LambdaResult.message]

/-- Witness for C10: a concrete oracle raising "Connection Timeout". -/
theorem lambda_handler_total_witness :
    (lambda_handler payRaise falOk testEvent).1.message = some "Connection Timeout" :=
  (lambda_handler_total payRaise falOk testEvent).2.2 "Connection Timeout" rfl

/-- Modelled from the spec: the `status` field of an Order record
(spec section 3); the coordinator state machine runs over these. -/
inductive Status where
  | PENDING
  | CHARGING
  | PAID
  | FAILED_RETRYABLE
  | FAILED_TERMINAL
deriving Repr, DecidableEq

/-- Opaque processor receipt (spec section 3, `processor_receipt`). -/
structure Receipt where
  rid : Nat
deriving Repr, DecidableEq

/-- Modelled from the spec: an Order record of the IdempotencyStore
(spec section 3, data model). -/
structure Order where
  order_id : String
  user_id : String
  amount : Nat
  feature_id : String
  artifact_ref : String
  status : Status
  processor_receipt : Option Receipt
  created_at : Nat
  updated_at : Nat
deriving Repr, DecidableEq

/-- Modelled from the spec: the IdempotencyStore as an association list
keyed by `order_id` (spec section 4.1); the repository has no store
implementation. -/
abbrev Store := List (String × Order)

/-- Modelled from the spec: `get(order_id) -> Order | NotFound`. -/
def Store.get (s : Store) (oid : String) : Option Order :=
  (s.find? (fun p => p.1 == oid)).map (fun p => p.2)

/-- Replace the record stored under `oid` (helper for `transition`). -/
def Store.set (s : Store) (oid : String) (r : Order) : Store :=
  s.map (fun p => if p.1 == oid then (oid, r) else p)

/-- Modelled from the spec: `createIfAbsent` atomically inserts a PENDING
record only if none exists and returns the existing record unchanged
otherwise (spec section 4.1). -/
def Store.createIfAbsent (s : Store) (oid uid : String) (amt : Nat)
    (fid aref : String) (now : Nat) : Order × Store :=
  match Store.get s oid with
  | some r => (r, s)
  | none =>
    let r : Order :=
      { order_id := oid, user_id := uid, amount := amt,
        feature_id := fid, artifact_ref := aref, status := .PENDING,
        processor_receipt := none, created_at := now, updated_at := now }
    (r, (oid, r) :: s)

/-- Modelled from the spec: `transition` is a compare-and-swap on status;
`none` is the ConflictError (or NotFound) outcome (spec section 4.1).
`processor_receipt` is immutable after its first write (spec section 3),
so an already-present receipt is kept (first-writer-wins). -/
def Store.transition (s : Store) (oid : String) (expected target : Status)
    (receipt : Option Receipt) (now : Nat) : Option Store :=
  match Store.get s oid with
  | none => none
  | some r =>
    if r.status = expected then
      some (Store.set s oid
        { r with status := target,
                 processor_receipt := r.processor_receipt.or receipt,
                 updated_at := now })
    else none

/-- A gateway error: `Rejected` is terminal, the others retryable
(spec section 4.2). -/
inductive GatewayError where
  | Rejected
  | Unavailable
  | Timeout
deriving Repr, DecidableEq

/-- The outcome the processor produces when it actually processes a charge
request. -/
inductive ChargeOutcome where
  | success (r : Receipt)
  | failure (e : GatewayError)
deriving Repr, DecidableEq

/-- Modelled from the spec: the external payment processor with
caller-supplied dedup tokens (spec section 4.2 and the memo's Stripe
Idempotency-Key discussion).  `settled` caches, per token, the outcome of
the request the processor completed; `realCharges` records every token for
which money actually moved.  `Unavailable`/`Timeout` mean the request
never completed at the processor, so nothing is cached for it. -/
structure Gateway where
  settled : List (String × ChargeOutcome)
  realCharges : List String
deriving Repr, DecidableEq

/-- The processor's dedup cache lookup for a token. -/
def Gateway.lookup (g : Gateway) (tok : String) : Option ChargeOutcome :=
  (g.settled.find? (fun p => p.1 == tok)).map (fun p => p.2)

/-- Modelled from the spec: `charge(order_id, ...)` with `order_id` as the
processor's dedup token: a duplicate token returns the original outcome
and moves no money; a fresh token is processed with outcome `fresh`. -/
def Gateway.charge (g : Gateway) (tok : String) (fresh : ChargeOutcome) :
    ChargeOutcome × Gateway :=
  match Gateway.lookup g tok with
  | some o => (o, g)
  | none =>
    match fresh with
    | .success r =>
      (.success r, { settled := (tok, .success r) :: g.settled,
                     realCharges := tok :: g.realCharges })
    | .failure .Rejected =>
      (.failure .Rejected,
       { settled := (tok, .failure .Rejected) :: g.settled,
         realCharges := g.realCharges })
    | .failure e => (.failure e, g)

/-- The gateway before any charge was attempted. -/
def emptyGateway : Gateway := { settled := [], realCharges := [] }

/-- The arguments of one `settle` request (spec section 6, inbound
interface). -/
structure SettleArgs where
  order_id : String
  user_id : String
  amount : Nat
  feature_id : String
  artifact_ref : String
deriving Repr, DecidableEq

/-- The caller-facing outcome of `settle` (spec sections 4.3 and 7). -/
inductive SettleResult where
  | paid (receipt : Option Receipt)
  | integrityViolation
  | terminalFailure
  | retryable
  | busy
deriving Repr, DecidableEq

/-- What one `settle` call produces: the response, the post-state of the
store and of the gateway, and how many gateway charge calls it issued. -/
structure SettleOutput where
  result : SettleResult
  store : Store
  gateway : Gateway
  gatewayCalls : Nat
deriving Repr, DecidableEq

/-- Modelled from the spec: the PaymentCoordinator operation
`settle(order_id, amount, user_id, feature_id, artifact_ref)` of spec
section 4.3; the repository contains no coordinator implementation.
`fuel` bounds the step-3 restarts (`busy` when exhausted); `fresh` is the
outcome the processor produces if this call reaches it first; `now` is
the wall clock used for store writes.  The integrity check precedes the
PAID shortcut, as demanded by spec section 8 scenario 4.  A successful
charge surfaces the receipt actually stored, so a racing writer's receipt
is never surfaced (first-writer-wins, spec section 4.3 step 4). -/
def settle : Nat → Store → Gateway → SettleArgs → ChargeOutcome → Nat →
    SettleOutput
  | 0, store, gw, _, _, _ =>
    { result := .busy, store := store, gateway := gw, gatewayCalls := 0 }
  | fuel0 + 1, store, gw, a, fresh, now =>
    match Store.createIfAbsent store a.order_id a.user_id a.amount
        a.feature_id a.artifact_ref now with
    | (record, store1) =>
      if record.amount ≠ a.amount ∨ record.feature_id ≠ a.feature_id then
        { result := .integrityViolation, store := store1, gateway := gw,
          gatewayCalls := 0 }
      else if record.status = .PAID then
        { result := .paid record.processor_receipt, store := store1,
          gateway := gw, gatewayCalls := 0 }
      else if record.status = .FAILED_TERMINAL then
        { result := .terminalFailure, store := store1, gateway := gw,
          gatewayCalls := 0 }
      else
        match Store.transition store1 a.order_id record.status .CHARGING none now with
        | none => settle fuel0 store1 gw a fresh now
        | some store2 =>
          match Gateway.charge gw a.order_id fresh with
          | (.success r, gw1) =>
            match Store.transition store2 a.order_id .CHARGING .PAID (some r) now with
            | some store3 =>
              { result := .paid ((Store.get store3 a.order_id).bind
                  (fun o => o.processor_receipt)),
                store := store3, gateway := gw1, gatewayCalls := 1 }
            | none =>
              { result := .paid ((Store.get store2 a.order_id).bind
                  (fun o => o.processor_receipt)),
                store := store2, gateway := gw1, gatewayCalls := 1 }
          | (.failure .Rejected, gw1) =>
            match Store.transition store2 a.order_id .CHARGING .FAILED_TERMINAL none now with
            | some store3 =>
              { result := .terminalFailure, store := store3, gateway := gw1,
                gatewayCalls := 1 }
            | none =>
              { result := .terminalFailure, store := store2, gateway := gw1,
                gatewayCalls := 1 }
          | (.failure _, gw1) =>
            match Store.transition store2 a.order_id .CHARGING .FAILED_RETRYABLE none now with
            | some store3 =>
              { result := .retryable, store := store3, gateway := gw1,
                gatewayCalls := 1 }
            | none =>
              { result := .retryable, store := store2, gateway := gw1,
                gatewayCalls := 1 }

/-- Modelled from the spec: a `settle` call whose coordinator crashes in
CHARGING, after the gateway call was issued but before the outcome is
persisted (spec section 4.3, the crash-before-step-4-resolves bullet).
The store is left showing CHARGING; the gateway has processed the call. -/
def settleCrashInCharging (store : Store) (gw : Gateway) (a : SettleArgs)
    (fresh : ChargeOutcome) (now : Nat) : Store × Gateway :=
  match Store.createIfAbsent store a.order_id a.user_id a.amount
      a.feature_id a.artifact_ref now with
  | (record, store1) =>
    if record.amount ≠ a.amount ∨ record.feature_id ≠ a.feature_id then (store1, gw)
    else if record.status = .PAID then (store1, gw)
    else if record.status = .FAILED_TERMINAL then (store1, gw)
    else
      match Store.transition store1 a.order_id record.status .CHARGING none now with
      | none => (store1, gw)
      | some store2 => (store2, (Gateway.charge gw a.order_id fresh).2)

/-- The step-3 restart bound ("a small number of restarts", spec
section 4.3 step 3). -/
def restartBound : Nat := 3

/-- One interleaving-atomic settlement attempt in a trace: a completed
`settle` call or one that crashed in CHARGING. -/
inductive SettleEvent where
  | complete (a : SettleArgs) (fresh : ChargeOutcome) (now : Nat)
  | crashInCharging (a : SettleArgs) (fresh : ChargeOutcome) (now : Nat)
deriving Repr

/-- Run a trace of settlement attempts against a store and the gateway. -/
def runEvents : List SettleEvent → Store → Gateway → Store × Gateway
  | [], s, g => (s, g)
  | .complete a fresh now :: rest, s, g =>
    runEvents rest (settle restartBound s g a fresh now).store
      (settle restartBound s g a fresh now).gateway
  | .crashInCharging a fresh now :: rest, s, g =>
    runEvents rest (settleCrashInCharging s g a fresh now).1
      (settleCrashInCharging s g a fresh now).2

/-- The response of the memo's `handlePayment` Lambda sketch. -/
inductive HPResult where
  | alreadyPaid
  | charged (r : Receipt)
  | serverError
deriving Repr, DecidableEq

/-- The `handlePayment` sketch from the memo: check DynamoDB first; if the
order is already recorded as paid, answer 200 without touching Stripe;
otherwise call Stripe passing `idempotencyKey := order_id`, record the
order as paid on success, and map a Stripe error to the 500 response.
`db` is the set of order ids DynamoDB records as Paid. -/
def handlePayment (db : List String) (gw : Gateway) (oid : String)
    (fresh : ChargeOutcome) : HPResult × List String × Gateway :=
  if oid ∈ db then (.alreadyPaid, db, gw)
  else
    match Gateway.charge gw oid fresh with
    | (.success r, gw1) => (.charged r, oid :: db, gw1)
    | (.failure _, gw1) => (.serverError, db, gw1)

/-- Run a trace of `handlePayment` attempts for one order id; an event
marked `false` crashes after the Stripe call and before the DynamoDB
update (the memo's crash scenario). -/
def runHP : List (Bool × ChargeOutcome) → String → List String × Gateway →
    List String × Gateway
  | [], _, st => st
  | (true, fresh) :: rest, oid, st =>
    runHP rest oid (handlePayment st.1 st.2 oid fresh).2
  | (false, fresh) :: rest, oid, st =>
    if oid ∈ st.1 then runHP rest oid st
    else runHP rest oid (st.1, (Gateway.charge st.2 oid fresh).2)

/-- Modelled from the spec: the RetryPolicy configuration — the delay
ceiling in seconds and the number of automatic attempts after which the
caller is prompted instead (spec section 4.4). -/
structure RetryPolicy where
  ceiling : Nat
  maxAutoAttempts : Nat
deriving Repr, DecidableEq

/-- Modelled from the spec: the uncapped backoff sequence in seconds —
the fixed initial delays 1, 3, 5 of spec section 4.4 (and the memo's
Exponential Backoff list), then exponential doubling. -/
def rawDelay : Nat → Nat
  | 0 => 1
  | 1 => 1
  | 2 => 3
  | 3 => 5
  | n + 4 => 2 * rawDelay (n + 3)

/-- Modelled from the spec: `delay(n)`, the backoff before attempt `n+1`,
capped at the configured ceiling (spec section 4.4). -/
def RetryPolicy.delay (p : RetryPolicy) (n : Nat) : Nat :=
  min (rawDelay n) p.ceiling

/-- Modelled from the spec: after `maxAutoAttempts` automatic attempts the
caller-facing contract switches from hiding the error to surfacing a
retry prompt (spec section 4.4, memo section on manual retry). -/
def RetryPolicy.surfaceRetryPrompt (p : RetryPolicy) (attempts : Nat) : Bool :=
  p.maxAutoAttempts ≤ attempts

/-- Modelled from the spec: is a record "at risk" — status PENDING or
CHARGING and `updated_at` older than the abandonment threshold
(spec section 4.5)? -/
def Order.atRisk (r : Order) (now threshold : Nat) : Bool :=
  (r.status == Status.PENDING || r.status == Status.CHARGING)
    && decide (r.updated_at + threshold < now)

/-- Modelled from the spec: the ReconciliationScanner sweep — it emits the
at-risk report and hands the store back untouched (spec section 4.5). -/
def ReconciliationScanner.scan (s : Store) (now threshold : Nat) :
    List (String × Order) × Store :=
  (s.filter (fun p => Order.atRisk p.2 now threshold), s)

/-- A duplicate token hits the processor's dedup cache: the original
outcome is returned and the gateway state (in particular `realCharges`)
does not change. -/
theorem Gateway.charge_cached (g : Gateway) (tok : String) (o : ChargeOutcome)
    (h : Gateway.lookup g tok = some o) (fresh : ChargeOutcome) :
    Gateway.charge g tok fresh = (o, g) := by
  unfold Gateway.charge
  rw [h]

/-- Dedup-cache lookup after recording one more completed outcome. -/
theorem Gateway.lookup_record (g : Gateway) (tok x : String) (o : ChargeOutcome)
    (rc : List String) :
    Gateway.lookup { settled := (tok, o) :: g.settled, realCharges := rc } x =
      if tok = x then some o else Gateway.lookup g x := by
  unfold Gateway.lookup
  by_cases h : tok = x
  · simp [List.find?, h]
  · have hb : (tok == x) = false := by simp [h]
    simp [List.find?, hb, h]

/-- The protocol invariant on the processor, per token: money moved for
`oid` exactly as often as the dedup cache holds a success for `oid` —
zero or one time. -/
def gwConsistent (g : Gateway) (oid : String) : Prop :=
  g.realCharges.count oid = (match Gateway.lookup g oid with
    | some (.success _) => 1
    | _ => 0)

theorem gwConsistent_empty (oid : String) : gwConsistent emptyGateway oid := by
  unfold gwConsistent emptyGateway Gateway.lookup
  simp

theorem gwConsistent_count_le_one (g : Gateway) (oid : String)
    (h : gwConsistent g oid) : g.realCharges.count oid ≤ 1 := by
  unfold gwConsistent at h
  rw [h]
  cases Gateway.lookup g oid with
  | none => simp
  | some o => cases o <;> simp

/-- `charge` (with any token) preserves the per-token invariant. -/
theorem gwConsistent_charge (g : Gateway) (tok : String) (fresh : ChargeOutcome)
    (oid : String) (h : gwConsistent g oid) :
    gwConsistent (Gateway.charge g tok fresh).2 oid := by
  unfold Gateway.charge
  cases hl : Gateway.lookup g tok with
  | some o => simpa using h
  | none =>
    cases fresh with
    | success r =>
      unfold gwConsistent at h ⊢
      simp only [Gateway.lookup_record]
      by_cases ht : tok = oid
      · subst ht
        rw [hl] at h
        simp [List.count_cons, h]
      · simp [ht, List.count_cons, Ne.symm ht, h]
    | failure e =>
      cases e with
      | Rejected =>
        unfold gwConsistent at h ⊢
        simp only [Gateway.lookup_record]
        by_cases ht : tok = oid
        · subst ht
          rw [hl] at h
          simp [h]
        · simp [ht, h]
      | Unavailable => simpa using h
      | Timeout => simpa using h

/-- Every gateway interaction of `settle` goes through `Gateway.charge`
with the call's own `order_id` as token, so the per-token invariant is
preserved. -/
theorem gwConsistent_settle (fuel : Nat) (store : Store) (gw : Gateway)
    (a : SettleArgs) (fresh : ChargeOutcome) (now : Nat) (oid : String)
    (h : gwConsistent gw oid) :
    gwConsistent (settle fuel store gw a fresh now).gateway oid := by
  induction fuel generalizing store gw with
  | zero => simpa [settle] using h
  | succ n ih =>
    unfold settle
    split
    split
    · exact h
    · split
      · exact h
      · split
        · exact h
        · split
          · exact ih _ _ h
          · split <;> rename_i heq
            · split
              all_goals
                have hcg := gwConsistent_charge gw a.order_id fresh oid h
                rw [heq] at hcg
                exact hcg
            · split
              all_goals
                have hcg := gwConsistent_charge gw a.order_id fresh oid h
                rw [heq] at hcg
                exact hcg
            · split
              all_goals
                have hcg := gwConsistent_charge gw a.order_id fresh oid h
                rw [heq] at hcg
                exact hcg

/-- A settle attempt that crashes in CHARGING also preserves the
per-token invariant. -/
theorem gwConsistent_crash (store : Store) (gw : Gateway) (a : SettleArgs)
    (fresh : ChargeOutcome) (now : Nat) (oid : String) (h : gwConsistent gw oid) :
    gwConsistent (settleCrashInCharging store gw a fresh now).2 oid := by
  unfold settleCrashInCharging
  split
  split
  · exact h
  · split
    · exact h
    · split
      · exact h
      · split
        · exact h
        · exact gwConsistent_charge gw a.order_id fresh oid h

theorem gwConsistent_runEvents (events : List SettleEvent) (s : Store)
    (g : Gateway) (oid : String) (h : gwConsistent g oid) :
    gwConsistent (runEvents events s g).2 oid := by
  induction events generalizing s g with
  | nil => simpa [runEvents] using h
  | cons e rest ih =>
    cases e with
    | complete a fresh now =>
      simp only [runEvents]
      exact ih _ _ (gwConsistent_settle _ _ _ _ _ _ _ h)
    | crashInCharging a fresh now =>
      simp only [runEvents]
      exact ih _ _ (gwConsistent_crash _ _ _ _ _ _ h)

/-- `handlePayment` preserves the per-token invariant. -/
theorem gwConsistent_handlePayment (db : List String) (gw : Gateway)
    (hpoid : String) (fresh : ChargeOutcome) (oid : String)
    (h : gwConsistent gw oid) :
    gwConsistent (handlePayment db gw hpoid fresh).2.2 oid := by
  unfold handlePayment
  split
  · exact h
  · split <;> rename_i heq
    all_goals
      have hcg := gwConsistent_charge gw hpoid fresh oid h
      rw [heq] at hcg
      exact hcg

theorem gwConsistent_runHP (events : List (Bool × ChargeOutcome))
    (hpoid : String) (st : List String × Gateway) (oid : String)
    (h : gwConsistent st.2 oid) :
    gwConsistent (runHP events hpoid st).2 oid := by
  induction events generalizing st with
  | nil => simpa [runHP] using h
  | cons e rest ih =>
    cases e with
    | mk b fresh =>
      cases b with
      | true =>
        simp only [runHP]
        exact ih _ (gwConsistent_handlePayment _ _ _ _ _ h)
      | false =>
        simp only [runHP]
        split
        · exact ih _ h
        · exact ih _ (gwConsistent_charge _ _ _ _ h)

/-- C1: across any trace of settlement attempts sharing the processor —
completed coordinator `settle` calls (any arguments), `settle` calls that
crash in CHARGING, and any sequence of the memo's `handlePayment` Lambda
calls (completed or crashed between the Stripe call and the DynamoDB
update) — money moves at most once for any one `order_id`: every gateway
call passes the `order_id` as the dedup token, and the processor answers
a duplicate token with the original outcome instead of charging again. -/
theorem at_most_one_real_charge (events : List SettleEvent) (s0 : Store)
    (hpevents : List (Bool × ChargeOutcome)) (db0 : List String) (oid : String) :
    (runEvents events s0 emptyGateway).2.realCharges.count oid ≤ 1 ∧
    (runHP hpevents oid (db0, emptyGateway)).2.realCharges.count oid ≤ 1 ∧
    (∀ g o fresh, Gateway.lookup g oid = some o →
      Gateway.charge g oid fresh = (o, g)) := by
  refine ⟨?_, ?_, ?_⟩
  · exact gwConsistent_count_le_one _ _
      (gwConsistent_runEvents _ _ _ _ (gwConsistent_empty oid))
  · exact gwConsistent_count_le_one _ _
      (gwConsistent_runHP _ _ _ _ (gwConsistent_empty oid))
  · intro g o fresh h
    exact Gateway.charge_cached g oid o h fresh

def demoReceipt : Receipt := { rid := 7 }

def demoGateway : Gateway :=
  { settled := [("o1", .success demoReceipt)], realCharges := ["o1"] }

/-- Witness for C1: a processor that already settled token "o1" answers a
re-issued charge with the original receipt and does not charge again. -/
theorem at_most_one_real_charge_witness :
    Gateway.charge demoGateway "o1" (.success { rid := 8 }) =
      (.success demoReceipt, demoGateway) :=
  (at_most_one_real_charge [] [] [] [] "o1").2.2 demoGateway
    (.success demoReceipt) (.success { rid := 8 }) (by decide)

theorem Store.get_cons_self (s : Store) (oid : String) (r : Order) :
    Store.get ((oid, r) :: s) oid = some r := by
  simp [Store.get, List.find?]

/-- Overwriting an existing key makes `get` return the new record. -/
theorem Store.get_set (s : Store) (oid : String) (r r0 : Order)
    (h : Store.get s oid = some r0) :
    Store.get (Store.set s oid r) oid = some r := by
  induction s with
  | nil => simp [Store.get] at h
  | cons p rest ih =>
    by_cases hp : p.1 = oid
    · simp [Store.get, Store.set, List.find?, hp]
    · have hb : (p.1 == oid) = false := by simp [hp]
      simp only [Store.get, Store.set, List.map_cons, List.find?, hb,
        Bool.false_eq_true, if_false] at h ⊢
      exact ih h

/-- The record `createIfAbsent` returns is the one the resulting store
holds under the key. -/
theorem Store.get_createIfAbsent (s : Store) (oid uid : String) (amt : Nat)
    (fid aref : String) (now : Nat) :
    Store.get (Store.createIfAbsent s oid uid amt fid aref now).2 oid =
      some (Store.createIfAbsent s oid uid amt fid aref now).1 := by
  unfold Store.createIfAbsent
  cases hg : Store.get s oid with
  | some r => simpa using hg
  | none => simpa using Store.get_cons_self s oid _

/-- `transition` succeeds when the caller's expectation matches the
record's current status, and performs exactly the compare-and-swap. -/
theorem Store.transition_of_get (s : Store) (oid : String) (r0 : Order)
    (hg : Store.get s oid = some r0) (expected target : Status)
    (hexp : r0.status = expected) (receipt : Option Receipt) (now : Nat) :
    Store.transition s oid expected target receipt now =
      some (Store.set s oid
        { r0 with status := target,
                  processor_receipt := r0.processor_receipt.or receipt,
                  updated_at := now }) := by
  unfold Store.transition
  rw [hg]
  simp [hexp]

/-- Step-1 shortcut: on a matching PAID record, `settle` returns the
cached receipt immediately with no gateway call and no state change. -/
theorem settle_cached_paid (fuel : Nat) (store : Store) (gw : Gateway)
    (a : SettleArgs) (fresh : ChargeOutcome) (now : Nat) (rec : Order)
    (hg : Store.get store a.order_id = some rec) (hp : rec.status = .PAID)
    (ha : rec.amount = a.amount) (hf : rec.feature_id = a.feature_id) :
    settle (fuel + 1) store gw a fresh now =
      { result := .paid rec.processor_receipt, store := store, gateway := gw,
        gatewayCalls := 0 } := by
  unfold settle Store.createIfAbsent
  rw [hg]
  simp [ha, hf, hp]

/-- Step-2 shortcut: on a matching FAILED_TERMINAL record, `settle`
returns the terminal failure immediately with no gateway call and no
state change. -/
theorem settle_cached_terminal (fuel : Nat) (store : Store) (gw : Gateway)
    (a : SettleArgs) (fresh : ChargeOutcome) (now : Nat) (rec : Order)
    (hg : Store.get store a.order_id = some rec)
    (hp : rec.status = .FAILED_TERMINAL)
    (ha : rec.amount = a.amount) (hf : rec.feature_id = a.feature_id) :
    settle (fuel + 1) store gw a fresh now =
      { result := .terminalFailure, store := store, gateway := gw,
        gatewayCalls := 0 } := by
  unfold settle Store.createIfAbsent
  rw [hg]
  simp [ha, hf, hp]

/-- Step-1 integrity check: a previously-seen order settled with a
different amount or feature yields IntegrityViolation, no gateway call,
and no state change. -/
theorem settle_integrity (fuel : Nat) (store : Store) (gw : Gateway)
    (a : SettleArgs) (fresh : ChargeOutcome) (now : Nat) (rec : Order)
    (hg : Store.get store a.order_id = some rec)
    (hm : rec.amount ≠ a.amount ∨ rec.feature_id ≠ a.feature_id) :
    settle (fuel + 1) store gw a fresh now =
      { result := .integrityViolation, store := store, gateway := gw,
        gatewayCalls := 0 } := by
  unfold settle Store.createIfAbsent
  rw [hg]
  simp [hm]


/-- If `settle` answers PAID, the resulting store holds a PAID record for
the order whose stored receipt is exactly the one surfaced, and whose
amount and feature match the request. -/
theorem settle_paid_state (fuel : Nat) (store : Store) (gw : Gateway)
    (a : SettleArgs) (fresh : ChargeOutcome) (now : Nat) (r : Option Receipt)
    (h : (settle (fuel + 1) store gw a fresh now).result = .paid r) :
    ∃ rec, Store.get (settle (fuel + 1) store gw a fresh now).store a.order_id
        = some rec ∧
      rec.status = .PAID ∧ rec.processor_receipt = r ∧
      rec.amount = a.amount ∧ rec.feature_id = a.feature_id := by
  cases hca : Store.createIfAbsent store a.order_id a.user_id a.amount
      a.feature_id a.artifact_ref now with
  | mk rec0 store1 =>
    have hget1 : Store.get store1 a.order_id = some rec0 := by
      have hx := Store.get_createIfAbsent store a.order_id a.user_id a.amount
        a.feature_id a.artifact_ref now
      rw [hca] at hx
      exact hx
    unfold settle at h ⊢
    rw [hca] at h ⊢
    by_cases hm : rec0.amount ≠ a.amount ∨ rec0.feature_id ≠ a.feature_id
    · simp [hm] at h
    · push_neg at hm
      obtain ⟨ha, hf⟩ := hm
      by_cases hpd : rec0.status = .PAID
      · simp [ha, hf, hpd] at h ⊢
        exact ⟨rec0, hget1, hpd, h, ha, hf⟩
      · by_cases hft : rec0.status = .FAILED_TERMINAL
        · simp [ha, hf, hpd, hft] at h
        · simp [ha, hf, hpd, hft] at h ⊢
          rw [Store.transition_of_get store1 a.order_id rec0 hget1 rec0.status
            .CHARGING rfl none now] at h ⊢
          simp only [Option.or_none] at h ⊢
          cases hch : Gateway.charge gw a.order_id fresh with
          | mk outcome gw1 =>
            rw [hch] at h
            cases outcome with
            | success rr =>
              have hget2 : Store.get (Store.set store1 a.order_id
                  { rec0 with status := .CHARGING,
                              processor_receipt := rec0.processor_receipt,
                              updated_at := now }) a.order_id =
                  some { rec0 with status := .CHARGING,
                                   processor_receipt := rec0.processor_receipt,
                                   updated_at := now } :=
                Store.get_set store1 a.order_id _ rec0 hget1
              simp only [hget2] at h ⊢
              rw [Store.transition_of_get _ a.order_id _ hget2 .CHARGING .PAID
                rfl (some rr) now] at h ⊢
              simp only [] at h ⊢
              rw [Store.get_set _ a.order_id _ _ hget2] at h ⊢
              simp only [Option.some_bind, SettleResult.paid.injEq] at h
              exact ⟨_, rfl, rfl, h, ha, hf⟩
            | failure e =>
              cases e <;> (simp only [] at h; split at h <;> simp at h)

/-- C2: once an order's record has reached PAID, calling `settle` again
with identical arguments returns the same cached receipt that the first
call surfaced, issues zero additional gateway calls, and changes nothing. -/
theorem settle_idempotent_after_paid (fuel fuel2 : Nat) (store : Store)
    (gw : Gateway) (a : SettleArgs) (fresh fresh2 : ChargeOutcome)
    (now now2 : Nat) (r : Option Receipt)
    (h : (settle (fuel + 1) store gw a fresh now).result = .paid r) :
    settle (fuel2 + 1) (settle (fuel + 1) store gw a fresh now).store
        (settle (fuel + 1) store gw a fresh now).gateway a fresh2 now2 =
      { result := .paid r,
        store := (settle (fuel + 1) store gw a fresh now).store,
        gateway := (settle (fuel + 1) store gw a fresh now).gateway,
        gatewayCalls := 0 } := by
  obtain ⟨rec, hget, hst, hrec, ha, hf⟩ :=
    settle_paid_state fuel store gw a fresh now r h
  rw [settle_cached_paid fuel2 _ _ a fresh2 now2 rec hget hst ha hf, hrec]

/-- Witness for C2: an order settled from scratch (gateway succeeds), then
settled again: the second call returns the same receipt with zero gateway
calls. -/
theorem settle_idempotent_after_paid_witness :
    settle 1 (settle 1 [] emptyGateway
          { order_id := "o3", user_id := "u1", amount := 500,
            feature_id := "fA", artifact_ref := "art" }
          (.success demoReceipt) 2).store
        (settle 1 [] emptyGateway
          { order_id := "o3", user_id := "u1", amount := 500,
            feature_id := "fA", artifact_ref := "art" }
          (.success demoReceipt) 2).gateway
        { order_id := "o3", user_id := "u1", amount := 500,
          feature_id := "fA", artifact_ref := "art" }
        (.failure .Timeout) 3 =
      { result := .paid (some demoReceipt),
        store := (settle 1 [] emptyGateway
          { order_id := "o3", user_id := "u1", amount := 500,
            feature_id := "fA", artifact_ref := "art" }
          (.success demoReceipt) 2).store,
        gateway := (settle 1 [] emptyGateway
          { order_id := "o3", user_id := "u1", amount := 500,
            feature_id := "fA", artifact_ref := "art" }
          (.success demoReceipt) 2).gateway,
        gatewayCalls := 0 } :=
  settle_idempotent_after_paid 0 0 [] emptyGateway
    { order_id := "o3", user_id := "u1", amount := 500,
      feature_id := "fA", artifact_ref := "art" }
    (.success demoReceipt) (.failure .Timeout) 2 3 (some demoReceipt) (by decide)

/-- C3: settling a previously-seen order with a different amount or
feature id always yields IntegrityViolation, never a gateway charge, and
leaves both stores untouched. -/
theorem settle_integrity_violation (fuel : Nat) (store : Store) (gw : Gateway)
    (a : SettleArgs) (fresh : ChargeOutcome) (now : Nat) (rec : Order)
    (hg : Store.get store a.order_id = some rec)
    (hm : rec.amount ≠ a.amount ∨ rec.feature_id ≠ a.feature_id) :
    (settle (fuel + 1) store gw a fresh now).result = .integrityViolation ∧
    (settle (fuel + 1) store gw a fresh now).gatewayCalls = 0 ∧
    (settle (fuel + 1) store gw a fresh now).store = store ∧
    (settle (fuel + 1) store gw a fresh now).gateway = gw := by
  rw [settle_integrity fuel store gw a fresh now rec hg hm]
  exact ⟨rfl, rfl, rfl, rfl⟩

def paidOrder : Order :=
  { order_id := "o3", user_id := "u1", amount := 500, feature_id := "fA",
    artifact_ref := "art", status := .PAID,
    processor_receipt := some demoReceipt, created_at := 0, updated_at := 1 }

def paidStore : Store := [("o3", paidOrder)]

/-- Witness for C3 (spec scenario 4): order "o3" is PAID with amount 500;
settling it with amount 100 is an IntegrityViolation with no charge. -/
theorem settle_integrity_violation_witness :
    (settle 1 paidStore emptyGateway
        { order_id := "o3", user_id := "u1", amount := 100,
          feature_id := "fA", artifact_ref := "art" }
        (.success demoReceipt) 2).result = .integrityViolation ∧
    (settle 1 paidStore emptyGateway
        { order_id := "o3", user_id := "u1", amount := 100,
          feature_id := "fA", artifact_ref := "art" }
        (.success demoReceipt) 2).gatewayCalls = 0 ∧
    (settle 1 paidStore emptyGateway
        { order_id := "o3", user_id := "u1", amount := 100,
          feature_id := "fA", artifact_ref := "art" }
        (.success demoReceipt) 2).store = paidStore ∧
    (settle 1 paidStore emptyGateway
        { order_id := "o3", user_id := "u1", amount := 100,
          feature_id := "fA", artifact_ref := "art" }
        (.success demoReceipt) 2).gateway = emptyGateway :=
  settle_integrity_violation 0 paidStore emptyGateway
    { order_id := "o3", user_id := "u1", amount := 100,
      feature_id := "fA", artifact_ref := "art" }
    (.success demoReceipt) 2 paidOrder (by decide) (by decide)

/-- C4: a record in PAID or FAILED_TERMINAL is absorbing: a further
`settle` issues zero gateway calls and leaves the store and the gateway
exactly as they were, so the stored record (with its
`processor_receipt`) agrees across all reads. -/
theorem settle_terminal_finality (fuel : Nat) (store : Store) (gw : Gateway)
    (a : SettleArgs) (fresh : ChargeOutcome) (now : Nat) (rec : Order)
    (hg : Store.get store a.order_id = some rec)
    (hs : rec.status = .PAID ∨ rec.status = .FAILED_TERMINAL) :
    (settle (fuel + 1) store gw a fresh now).gatewayCalls = 0 ∧
    (settle (fuel + 1) store gw a fresh now).store = store ∧
    (settle (fuel + 1) store gw a fresh now).gateway = gw ∧
    Store.get (settle (fuel + 1) store gw a fresh now).store a.order_id
      = some rec := by
  by_cases hm : rec.amount ≠ a.amount ∨ rec.feature_id ≠ a.feature_id
  · rw [settle_integrity fuel store gw a fresh now rec hg hm]
    exact ⟨rfl, rfl, rfl, hg⟩
  · push_neg at hm
    obtain ⟨ha, hf⟩ := hm
    cases hs with
    | inl hp =>
      rw [settle_cached_paid fuel store gw a fresh now rec hg hp ha hf]
      exact ⟨rfl, rfl, rfl, hg⟩
    | inr ht =>
      rw [settle_cached_terminal fuel store gw a fresh now rec hg ht ha hf]
      exact ⟨rfl, rfl, rfl, hg⟩

def terminalOrder : Order :=
  { order_id := "o5", user_id := "u1", amount := 500, feature_id := "fA",
    artifact_ref := "art", status := .FAILED_TERMINAL,
    processor_receipt := none, created_at := 0, updated_at := 1 }

def terminalStore : Store := [("o5", terminalOrder)]

/-- Witness for C4 (spec scenario 5): a FAILED_TERMINAL order re-settled
with identical arguments: no gateway call, nothing changes. -/
theorem settle_terminal_finality_witness :
    (settle 1 terminalStore emptyGateway
        { order_id := "o5", user_id := "u1", amount := 500,
          feature_id := "fA", artifact_ref := "art" }
        (.success demoReceipt) 2).gatewayCalls = 0 ∧
    (settle 1 terminalStore emptyGateway
        { order_id := "o5", user_id := "u1", amount := 500,
          feature_id := "fA", artifact_ref := "art" }
        (.success demoReceipt) 2).store = terminalStore ∧
    (settle 1 terminalStore emptyGateway
        { order_id := "o5", user_id := "u1", amount := 500,
          feature_id := "fA", artifact_ref := "art" }
        (.success demoReceipt) 2).gateway = emptyGateway ∧
    Store.get (settle 1 terminalStore emptyGateway
        { order_id := "o5", user_id := "u1", amount := 500,
          feature_id := "fA", artifact_ref := "art" }
        (.success demoReceipt) 2).store "o5" = some terminalOrder :=
  settle_terminal_finality 0 terminalStore emptyGateway
    { order_id := "o5", user_id := "u1", amount := 500,
      feature_id := "fA", artifact_ref := "art" }
    (.success demoReceipt) 2 terminalOrder (by decide) (Or.inr (by decide))

/-- C5: `createIfAbsent` returns an existing record unchanged together
with the unchanged store (no overwrite), and inserts a fresh PENDING
record exactly when none exists. -/
theorem createIfAbsent_atomic (s : Store) (oid uid : String) (amt : Nat)
    (fid aref : String) (now : Nat) :
    (∀ rec, Store.get s oid = some rec →
      Store.createIfAbsent s oid uid amt fid aref now = (rec, s)) ∧
    (Store.get s oid = none →
      Store.createIfAbsent s oid uid amt fid aref now =
        ({ order_id := oid, user_id := uid, amount := amt, feature_id := fid,
           artifact_ref := aref, status := .PENDING, processor_receipt := none,
           created_at := now, updated_at := now },
         (oid,
          { order_id := oid, user_id := uid, amount := amt, feature_id := fid,
            artifact_ref := aref, status := .PENDING, processor_receipt := none,
            created_at := now, updated_at := now }) :: s)) := by
  constructor
  · intro rec hg
    unfold Store.createIfAbsent
    rw [hg]
  · intro hg
    unfold Store.createIfAbsent
    rw [hg]

/-- Witness for C5: on a store already holding "o3", `createIfAbsent`
hands back the stored record and the store unchanged. -/
theorem createIfAbsent_atomic_witness :
    Store.createIfAbsent paidStore "o3" "u1" 500 "fA" "art" 9 =
      (paidOrder, paidStore) :=
  (createIfAbsent_atomic paidStore "o3" "u1" 500 "fA" "art" 9).1 paidOrder
    (by decide)

/-- C6: RetryPolicy is a pure function of the attempt count (deterministic
and stateless by construction): delay(1)=1s, delay(2)=3s, delay(3)=5s,
every delay is capped at the configured ceiling, the raw sequence doubles
from the third attempt on (exponential growth), and the caller-facing
contract switches to a retry prompt exactly after the configured number
of automatic attempts. -/
theorem retry_policy_backoff (p : RetryPolicy) (h : 5 ≤ p.ceiling) :
    RetryPolicy.delay p 1 = 1 ∧ RetryPolicy.delay p 2 = 3 ∧
    RetryPolicy.delay p 3 = 5 ∧
    (∀ n, RetryPolicy.delay p n ≤ p.ceiling) ∧
    (∀ n, 3 ≤ n → rawDelay (n + 1) = 2 * rawDelay n) ∧
    (∀ n, RetryPolicy.surfaceRetryPrompt p n = true ↔ p.maxAutoAttempts ≤ n) := by
  refine ⟨?_, ?_, ?_, ?_, ?_, ?_⟩
  · simp only [RetryPolicy.delay, rawDelay]; omega
  · simp only [RetryPolicy.delay, rawDelay]; omega
  · simp only [RetryPolicy.delay, rawDelay]; omega
  · intro n; exact min_le_right _ _
  · intro n hn
    obtain ⟨k, rfl⟩ : ∃ k, n = k + 3 := ⟨n - 3, by omega⟩
    rfl
  · intro n
    simp [RetryPolicy.surfaceRetryPrompt]

def demoPolicy : RetryPolicy := { ceiling := 60, maxAutoAttempts := 5 }

/-- Witness for C6 at the policy (ceiling 60s, 5 automatic attempts). -/
theorem retry_policy_backoff_witness :
    RetryPolicy.delay demoPolicy 2 = 3 :=
  (retry_policy_backoff demoPolicy (by decide)).2.1

/-- C7: the reconciliation sweep hands the store back untouched (it never
mutates a record) and its report contains exactly the stored entries whose
status is PENDING or CHARGING and whose `updated_at` is older than the
abandonment threshold. -/
theorem reconciliation_scanner_read_only (s : Store) (now threshold : Nat) :
    (ReconciliationScanner.scan s now threshold).2 = s ∧
    ∀ p : String × Order, p ∈ (ReconciliationScanner.scan s now threshold).1 ↔
      (p ∈ s ∧ (p.2.status = .PENDING ∨ p.2.status = .CHARGING) ∧
        p.2.updated_at + threshold < now) := by
  constructor
  · rfl
  · intro p
    simp [ReconciliationScanner.scan, List.mem_filter, Order.atRisk, and_assoc]
